import Mathlib

/-! Verification of the file-scanning / LLM-response-validation scaffolding of
`checker.py` (repository `pot-tools`).

The program walks a directory tree, filters the discovered file paths,
sends each surviving file's text to a remote model, parses the reply as
JSON, validates it against the `CodeChange` schema (four required string
fields `path`, `old_content`, `new_content`, `reason`) and collects the
validated records, overwriting each record's `path` with the local
filesystem path.

Shallow embedding choices:
* A parsed JSON document (the Python value returned by `json.loads`) is a
  `PyJson` value; JSON numbers are modelled as integers (no claim depends
  on fractional numbers).
* The remote exchange for one file is modelled by a `RemoteOutcome`:
  an API/transport exception, a `json.loads` failure, or a parsed value.
  Reading the local file is modelled by a `ReadOutcome`.
* `os.walk` output is a sequence of `(directory, files-in-directory)`
  pairs; `fetch_updates` consumes such a sequence together with a
  responder function giving each file path its read and remote outcome.
* Directory trees with per-directory readability model the filesystem for
  the enumeration claims; `os_walk` embeds the default behaviour of
  Python's `os.walk` (`onerror=None`: a directory that cannot be listed is
  silently skipped together with its whole subtree).
* Diagnostics printed by `analyze_file_with_llm` are returned as a list of
  strings; the text of third-party exception messages (pydantic, the
  `AttributeError` raised by `.get` on a non-dict) is abstracted to a
  stand-in message, keeping the parts the code itself builds, in
  particular the analyzed file path embedded in each diagnostic line.
-/

/-- A Python value produced by `json.loads`: the argument of the schema
validation step.  Objects are association lists of string keys; a key
lookup takes the last binding, matching the way `json.loads` lets later
duplicate keys overwrite earlier ones. -/
inductive PyJson where
  | null : PyJson
  | bool : Bool → PyJson
  | num : Int → PyJson
  | str : String → PyJson
  | arr : List PyJson → PyJson
  | obj : List (String × PyJson) → PyJson

/-- Python `dict.get`: last binding of the key, `none` when absent. -/
def dictGet (fields : List (String × PyJson)) (key : String) : Option PyJson :=
  ((fields.filter (fun kv => kv.1 = key)).getLast?).map (fun kv => kv.2)

/-- Python truthiness of a parsed JSON value (`if data.get("modern"):`). -/
def PyJson.truthy : PyJson → Bool
  | .null => false
  | .bool b => b
  | .num n => n != 0
  | .str s => s != ""
  | .arr xs => !xs.isEmpty
  | .obj fs => !fs.isEmpty

/-- Truthiness of the result of `dict.get`: Python `None` is falsy. -/
def truthyOpt : Option PyJson → Bool
  | none => false
  | some j => j.truthy

/-- Whether the value is a Python `dict` (so that `.get` exists). -/
def PyJson.isObj : PyJson → Bool
  | .obj _ => true
  | _ => false

/-- Extract a string field value, as pydantic field validation of a `str`
field does (no coercion from other JSON types). -/
def asStr : Option PyJson → Option String
  | some (.str s) => some s
  | _ => none

/-- The `CodeChange` pydantic model of `checker.py`: four required string
fields. -/
structure CodeChange where
  path : String
  old_content : String
  new_content : String
  reason : String
deriving DecidableEq, Repr

/-- Validation `CodeChange(**data)`: succeeds exactly when all four required fields
are present with string values (extra keys are ignored, pydantic's
default); on success the record carries the parsed values. -/
def validateCodeChange (fields : List (String × PyJson)) : Option CodeChange :=
  match asStr (dictGet fields "path"), asStr (dictGet fields "old_content"),
      asStr (dictGet fields "new_content"), asStr (dictGet fields "reason") with
  | some p, some o, some n, some r =>
      some { path := p, old_content := o, new_content := n, reason := r }
  | _, _, _, _ => none

/-- One of the four required schema fields is absent from the object. -/
def missingRequiredField (fields : List (String × PyJson)) : Bool :=
  (dictGet fields "path").isNone || (dictGet fields "old_content").isNone ||
  (dictGet fields "new_content").isNone || (dictGet fields "reason").isNone

/-- Outcome of `open(file_path).read()` for one file: either the decoded
text (the lenient `errors="ignore"` decoding never fails on bytes, but
`open` itself can raise), or an I/O error with its message. -/
inductive ReadOutcome where
  | readError : String → ReadOutcome
  | content : String → ReadOutcome

/-- Outcome of the remote exchange for one file: an exception from the API
call (message), a `json.loads` failure (exception message and the raw
response text), or the parsed value. -/
inductive RemoteOutcome where
  | apiError : String → RemoteOutcome
  | parseError : String → String → RemoteOutcome
  | parsed : PyJson → RemoteOutcome

/-- Embedding of `analyze_file_with_llm` of `checker.py`, given the outcomes of its two
effects (file read, remote call) for the file at `file_path`.  Returns the
optional `CodeChange` together with the diagnostic lines it prints:

* read failure → log `Error reading {path}: {e}`, no record;
* API exception → log `Error analyzing {path} with Gemini: {e}`, no record;
* `json.loads` failure → two log lines naming the file and echoing the
  first 200 characters of the raw response, no record;
* parsed non-dict → `data.get("modern")` raises `AttributeError`, caught
  by the blanket handler which logs `Error analyzing {path} with
  Gemini: ...`, no record;
* parsed dict with truthy `"modern"` → no record, no diagnostic;
* otherwise pydantic validation: failure logs `Invalid CodeChange format
  for {path}: ...`, success returns the record. -/
def analyze_file_with_llm (file_path : String) (read : ReadOutcome)
    (remote : RemoteOutcome) : Option CodeChange × List String :=
  match read with
  | .readError msg => (none, ["Error reading " ++ file_path ++ ": " ++ msg])
  | .content _ =>
    match remote with
    | .apiError msg =>
        (none, ["Error analyzing " ++ file_path ++ " with Gemini: " ++ msg])
    | .parseError msg raw =>
        (none, ["Error parsing Gemini JSON response for " ++ file_path ++ ": " ++ msg,
                "Response was: " ++ String.mk (raw.toList.take 200) ++ "..."])
    | .parsed j =>
      match j with
      | .obj fields =>
          if truthyOpt (dictGet fields "modern") then (none, [])
          else
            match validateCodeChange fields with
            | some code_change => (some code_change, [])
            | none =>
                (none, ["Invalid CodeChange format for " ++ file_path ++ ": validation error"])
      | _ =>
          (none, ["Error analyzing " ++ file_path ++ " with Gemini: AttributeError"])

/-- Python `s.startswith(pat)`, computed on the character lists. -/
def py_startswith (s pat : String) : Bool :=
  decide (pat.toList <+: s.toList)

/-- Python `s.endswith(pat)` (one tuple member), computed on the
character lists. -/
def py_endswith (s pat : String) : Bool :=
  decide (pat.toList <:+ s.toList)

/-- Python's substring test `needle in hay`. -/
def py_in (needle hay : String) : Bool :=
  decide (needle.toList <:+: hay.toList)

/-- Embedding of `os.path.join` for one path component (POSIX), as used on the names
yielded by `os.walk`. -/
def ospath_join (a b : String) : String :=
  if py_startswith b "/" then b
  else if a = "" then b
  else if py_endswith a "/" then a ++ b
  else a ++ "/" ++ b

/-- Embedding of `os.path.basename` (POSIX): the part after the last slash. -/
def basename (p : String) : String :=
  String.mk (((p.toList.reverse).takeWhile (fun c => c != '/')).reverse)

/-- The skip condition of the loop in `fetch_updates`: hidden files,
excluded extensions, version-control and dependency directories. -/
def shouldSkip (filepath : String) : Bool :=
  py_startswith (basename filepath) "." ||
  py_endswith filepath ".css" || py_endswith filepath ".json" || py_endswith filepath ".md" ||
  py_endswith filepath ".svg" || py_endswith filepath ".ico" || py_endswith filepath ".mjs" ||
  py_endswith filepath ".gitignore" || py_endswith filepath ".env" || py_endswith filepath ".lock" ||
  py_in ".git/" filepath || py_in "node_modules/" filepath

/-- Embedding of `get_all_files_recursively` of `checker.py`, applied to the sequence
of `(root, files)` pairs that `os.walk` yields for the scanned directory
(`dirs` is unused by the source): joins every file name onto its root,
appending in traversal order. -/
def get_all_files_recursively (walk : List (String × List String)) : List String :=
  walk.foldl
    (fun all_files entry => all_files ++ entry.2.map (fun filename => ospath_join entry.1 filename))
    []

/-- Embedding of `fetch_updates` of `checker.py`: enumerate, skip filtered paths,
analyze each remaining file via the responder (its read and remote
outcomes), drop `None` results, overwrite `path` with the local file path
and collect in order. -/
def fetch_updates (walk : List (String × List String))
    (responder : String → ReadOutcome × RemoteOutcome) : List CodeChange :=
  (get_all_files_recursively walk).foldl
    (fun analysis_results filepath =>
      if shouldSkip filepath then analysis_results
      else
        match (analyze_file_with_llm filepath (responder filepath).1 (responder filepath).2).1 with
        | none => analysis_results
        | some response => analysis_results ++ [{ response with path := filepath }])
    []

/-- The contribution of a single enumerated path to `fetch_updates`:
`none` when the path is filtered out or the analysis yields no record,
otherwise the record with `path` overwritten. -/
def processFile (responder : String → ReadOutcome × RemoteOutcome)
    (filepath : String) : Option CodeChange :=
  if shouldSkip filepath then none
  else
    match (analyze_file_with_llm filepath (responder filepath).1 (responder filepath).2).1 with
    | none => none
    | some response => some { response with path := filepath }

/-- The subsequence of enumerated paths that reach the analysis call in
`fetch_updates` (those the skip condition does not remove). -/
def analyzed_files (walk : List (String × List String)) : List String :=
  (get_all_files_recursively walk).filter (fun fp => !shouldSkip fp)

/-- A directory tree with per-directory readability: `node readable files
subdirs`, each subdirectory carried with its name. -/
inductive DirTree where
  | node : Bool → List String → List (String × DirTree) → DirTree

mutual

/-- Python `os.walk` with its default `onerror=None`, rooted at `path`:
listing an unreadable directory raises inside `os.walk`, the error is
passed to `onerror` (a no-op) and the generator yields nothing for that
directory or anything below it; a readable directory is yielded and then
its subdirectories are walked top-down. -/
def os_walk (path : String) : DirTree → List (String × List String)
  | .node readable files subdirs =>
    if readable then (path, files) :: os_walk_children path subdirs
    else []

/-- Walk of the named subdirectories, in order. -/
def os_walk_children (path : String) : List (String × DirTree) → List (String × List String)
  | [] => []
  | (name, t) :: rest => os_walk (ospath_join path name) t ++ os_walk_children path rest

end

/-- The run on an actual directory: `fetch_updates(directory)` with the
enumeration produced by `os.walk` on the filesystem `tree` at `root`. -/
def run_on_directory (root : String) (tree : DirTree)
    (responder : String → ReadOutcome × RemoteOutcome) : List CodeChange :=
  fetch_updates (os_walk root tree) responder

/-- The module-level credential check of `checker.py`:
`GEMINI_API_KEY = os.getenv("GEMINI_API_KEY"); if not GEMINI_API_KEY:
raise ValueError(...)`.  Both an absent variable and an empty string are
falsy and abort. -/
def startup_api_key (env : String → Option String) : Except String String :=
  match env "GEMINI_API_KEY" with
  | none => .error "GEMINI_API_KEY not found in environment variables!"
  | some k =>
    if k = "" then .error "GEMINI_API_KEY not found in environment variables!"
    else .ok k

/-- The whole program: the credential check runs at import time, before
any directory enumeration or file analysis; only when it passes does the
pipeline run. -/
def run_program (env : String → Option String) (walk : List (String × List String))
    (responder : String → ReadOutcome × RemoteOutcome) : Except String (List CodeChange) :=
  match startup_api_key env with
  | .error e => .error e
  | .ok _ => .ok (fetch_updates walk responder)

/-- The record, if any, that the response itself determines: the response
must be a parsed JSON object, not the sentinel, and pass schema
validation.  Used to state the construction invariant of C4. -/
def responseRecord : RemoteOutcome → Option CodeChange
  | .parsed (.obj fields) =>
      if truthyOpt (dictGet fields "modern") then none
      else validateCodeChange fields
  | _ => none

/-! Helper lemmas about the pipeline. -/

/-- A record produced for an enumerated path carries that path. -/
theorem processFile_path {r : String → ReadOutcome × RemoteOutcome}
    {fp : String} {cc : CodeChange} (h : processFile r fp = some cc) :
    cc.path = fp := by
  unfold processFile at h
  split at h
  · cases h
  · split at h
    · cases h
    · cases h
      rfl

/-- The loop of `fetch_updates`, started from any accumulator, appends the
per-file contributions in order. -/
theorem fetch_foldl (r : String → ReadOutcome × RemoteOutcome)
    (l : List String) (acc : List CodeChange) :
    l.foldl
      (fun analysis_results filepath =>
        if shouldSkip filepath then analysis_results
        else
          match (analyze_file_with_llm filepath (r filepath).1 (r filepath).2).1 with
          | none => analysis_results
          | some response => analysis_results ++ [{ response with path := filepath }])
      acc
      = acc ++ l.filterMap (processFile r) := by
  induction l generalizing acc with
  | nil => simp
  | cons a t ih =>
    simp only [List.foldl_cons, List.filterMap_cons]
    cases h : shouldSkip a with
    | true =>
      have hp : processFile r a = none := by simp [processFile, h]
      simp [h, hp, ih]
    | false =>
      cases hx : (analyze_file_with_llm a (r a).1 (r a).2).1 with
      | none =>
        have hp : processFile r a = none := by simp [processFile, h, hx]
        simp [h, hx, hp, ih]
      | some response =>
        have hp : processFile r a = some { response with path := a } := by
          simp [processFile, h, hx]
        simp [h, hx, hp, ih]

/-- Characterization of `fetch_updates` as a `filterMap` over the
enumeration. -/
theorem fetch_updates_eq (walk : List (String × List String))
    (r : String → ReadOutcome × RemoteOutcome) :
    fetch_updates walk r = (get_all_files_recursively walk).filterMap (processFile r) := by
  unfold fetch_updates
  simpa using fetch_foldl r (get_all_files_recursively walk) []

/-- The enumeration is the concatenation, in walk order, of each
directory's files joined onto its root. -/
theorem gafr_foldl (walk : List (String × List String)) (acc : List String) :
    walk.foldl
      (fun all_files entry => all_files ++ entry.2.map (fun filename => ospath_join entry.1 filename))
      acc
      = acc ++ walk.flatMap (fun entry => entry.2.map (fun filename => ospath_join entry.1 filename)) := by
  induction walk generalizing acc with
  | nil => simp
  | cons a t ih => simp [List.flatMap_cons, ih]

/-- Closed form of `get_all_files_recursively`. -/
theorem gafr_eq (walk : List (String × List String)) :
    get_all_files_recursively walk
      = walk.flatMap (fun entry => entry.2.map (fun filename => ospath_join entry.1 filename)) := by
  unfold get_all_files_recursively
  simpa using gafr_foldl walk []

/-- A file whose analysis contributes nothing can be removed from the walk
without changing the result: the run just moves on to the next file. -/
theorem fetch_skip_middle (r : String → ReadOutcome × RemoteOutcome)
    (w1 w2 : List (String × List String)) (root : String)
    (f1 f2 : List String) (name : String)
    (h : processFile r (ospath_join root name) = none) :
    fetch_updates (w1 ++ (root, f1 ++ name :: f2) :: w2) r
      = fetch_updates (w1 ++ (root, f1 ++ f2) :: w2) r := by
  simp [fetch_updates_eq, gafr_eq, List.flatMap_append, List.flatMap_cons,
    List.map_append, List.map_cons, List.filterMap_append, List.filterMap_cons, h]

/-- No enumerated occurrence of `fp` means no collected record with path
`fp`. -/
theorem filterPath_count_zero (r : String → ReadOutcome × RemoteOutcome)
    (l : List String) (fp : String) (h : l.count fp = 0) :
    (l.filterMap (processFile r)).filter (fun cc => cc.path = fp) = [] := by
  induction l with
  | nil => simp
  | cons a t ih =>
    rw [List.count_cons] at h
    have ha : ¬(a = fp) := by
      intro he
      simp [he] at h
    have ht : t.count fp = 0 := by
      rcases Nat.add_eq_zero.mp h with ⟨h1, _⟩
      exact h1
    rw [List.filterMap_cons]
    cases hp : processFile r a with
    | none => exact ih ht
    | some cc =>
      have hcc : cc.path = a := processFile_path hp
      rw [List.filter_cons]
      simp only [hcc, decide_eq_true_eq]
      rw [if_neg ha]
      exact ih ht

/-- A path enumerated exactly once yields, among the collected records
with that path, exactly the contribution of that one analysis. -/
theorem filterPath_count_one (r : String → ReadOutcome × RemoteOutcome)
    (l : List String) (fp : String) (h : l.count fp = 1) :
    (l.filterMap (processFile r)).filter (fun cc => cc.path = fp)
      = (processFile r fp).toList := by
  induction l with
  | nil => simp at h
  | cons a t ih =>
    rw [List.count_cons] at h
    by_cases ha : a = fp
    · subst ha
      have ht : t.count a = 0 := by simp at h; omega
      rw [List.filterMap_cons]
      cases hp : processFile r a with
      | none => simpa using filterPath_count_zero r t a ht
      | some cc =>
        have hcc : cc.path = a := processFile_path hp
        rw [List.filter_cons]
        simp only [hcc, decide_eq_true_eq, if_pos rfl]
        rw [filterPath_count_zero r t a ht]
        rfl
    · have ht : t.count fp = 1 := by
        simp [ha] at h
        omega
      rw [List.filterMap_cons]
      cases hp : processFile r a with
      | none => exact ih ht
      | some cc =>
        have hcc : cc.path = a := processFile_path hp
        rw [List.filter_cons]
        simp only [hcc, decide_eq_true_eq]
        rw [if_neg ha]
        exact ih ht

/-- Sufficient condition for the Python substring test. -/
theorem py_in_true_of_toList {needle hay : String}
    (h : needle.toList <:+: hay.toList) : py_in needle hay = true := by
  unfold py_in
  exact decide_eq_true h

/-- Substring test succeeds whenever the needle occurs between two given
character lists. -/
theorem py_in_of_parts (mid hay : String) (pre post : List Char)
    (hh : hay.toList = pre ++ mid.toList ++ post) : py_in mid hay = true := by
  apply py_in_true_of_toList
  exact ⟨pre, post, hh.symm⟩

/-- A pydantic string field validates only from an actual JSON string. -/
theorem asStr_some {o : Option PyJson} {s : String} (h : asStr o = some s) :
    o = some (.str s) := by
  cases o with
  | none => simp [asStr] at h
  | some j =>
    cases j with
    | str t =>
      simp [asStr] at h
      rw [h]
    | null => simp [asStr] at h
    | bool b => simp [asStr] at h
    | num n => simp [asStr] at h
    | arr xs => simp [asStr] at h
    | obj fs => simp [asStr] at h

/-- Validation fails when a required field is absent. -/
theorem validate_none_of_missing {fields : List (String × PyJson)}
    (h : missingRequiredField fields = true) : validateCodeChange fields = none := by
  unfold validateCodeChange
  cases h1 : asStr (dictGet fields "path") with
  | none => rfl
  | some p =>
    cases h2 : asStr (dictGet fields "old_content") with
    | none => rfl
    | some o =>
      cases h3 : asStr (dictGet fields "new_content") with
      | none => rfl
      | some n =>
        cases h4 : asStr (dictGet fields "reason") with
        | none => rfl
        | some rr =>
          exfalso
          have e1 := asStr_some h1
          have e2 := asStr_some h2
          have e3 := asStr_some h3
          have e4 := asStr_some h4
          simp [missingRequiredField, e1, e2, e3, e4] at h

/-- Walking a list of subdirectories distributes over append. -/
theorem os_walk_children_append (path : String) (l1 l2 : List (String × DirTree)) :
    os_walk_children path (l1 ++ l2)
      = os_walk_children path l1 ++ os_walk_children path l2 := by
  induction l1 with
  | nil => simp [os_walk_children]
  | cons a t ih =>
    cases a with
    | mk name tree => simp [os_walk_children, ih]

/-- The analyzed subsequence drives `fetch_updates`: the loop body acts
only on the paths that survive the skip condition. -/
theorem fetch_updates_analyzed (walk : List (String × List String))
    (r : String → ReadOutcome × RemoteOutcome) :
    fetch_updates walk r = (analyzed_files walk).filterMap
      (fun fp => ((analyze_file_with_llm fp (r fp).1 (r fp).2).1).map
        (fun response => { response with path := fp })) := by
  rw [fetch_updates_eq]
  unfold analyzed_files
  induction (get_all_files_recursively walk) with
  | nil => rfl
  | cons a t ih =>
    rw [List.filterMap_cons, List.filter_cons]
    cases h : shouldSkip a with
    | true =>
      have hp : processFile r a = none := by simp [processFile, h]
      simp [h, hp, ih]
    | false =>
      cases hx : (analyze_file_with_llm a (r a).1 (r a).2).1 with
      | none =>
        have hp : processFile r a = none := by simp [processFile, h, hx]
        simp [h, hp, hx, ih, List.filterMap_cons]
      | some response =>
        have hp : processFile r a = some { response with path := a } := by
          simp [processFile, h, hx]
        simp [h, hp, hx, ih, List.filterMap_cons]

/-! Claim theorems. -/

/-- C1, claim as stated, is false on the code: for the file `d/a.py` the
remote response parses and satisfies the schema with `path` value `"b"`,
but the collected record's `path` is the filesystem path `d/a.py`, not the
parsed value (line `response.path = filepath` overwrites it); moreover a
schema-satisfying response that also carries a truthy `modern` field
produces zero records, not exactly one. -/
theorem c1_counterexample :
    (validateCodeChange [("path", .str "b"), ("old_content", .str "o"),
        ("new_content", .str "n"), ("reason", .str "r")]
      = some { path := "b", old_content := "o", new_content := "n", reason := "r" }) ∧
    (fetch_updates [("d", ["a.py"])]
      (fun _ => (.content "code", .parsed (.obj [("path", .str "b"), ("old_content", .str "o"),
        ("new_content", .str "n"), ("reason", .str "r")])))
      = [{ path := "d/a.py", old_content := "o", new_content := "n", reason := "r" }]) ∧
    ("d/a.py" ≠ "b") ∧
    (validateCodeChange [("path", .str "d/b.py"), ("old_content", .str "o"),
        ("new_content", .str "n"), ("reason", .str "r"), ("modern", .bool true)]
      = some { path := "d/b.py", old_content := "o", new_content := "n", reason := "r" }) ∧
    (fetch_updates [("d", ["b.py"])]
      (fun _ => (.content "code", .parsed (.obj [("path", .str "d/b.py"), ("old_content", .str "o"),
        ("new_content", .str "n"), ("reason", .str "r"), ("modern", .bool true)])))
      = []) := by
  exact ⟨by decide, by decide, by decide, by decide, by decide⟩

/-- C1 (amended): for a file enumerated exactly once whose remote response
parses as a JSON object satisfying the required schema and is not the
no-change sentinel (no truthy `modern` field), the pipeline collects
exactly one Change Record for that file; its `old_content`, `new_content`
and `reason` equal the parsed values while its `path` is the local
filesystem path of the analyzed file. -/
theorem c1_one_record_per_valid_file (walk : List (String × List String))
    (r : String → ReadOutcome × RemoteOutcome) (fp s : String)
    (fields : List (String × PyJson)) (c0 : CodeChange)
    (hcount : (get_all_files_recursively walk).count fp = 1)
    (hskip : shouldSkip fp = false)
    (hresp : r fp = (.content s, .parsed (.obj fields)))
    (hschema : validateCodeChange fields = some c0)
    (hmodern : truthyOpt (dictGet fields "modern") = false) :
    (fetch_updates walk r).filter (fun cc => cc.path = fp)
      = [{ path := fp, old_content := c0.old_content,
           new_content := c0.new_content, reason := c0.reason }] := by
  have hpf : processFile r fp
      = some { path := fp, old_content := c0.old_content,
               new_content := c0.new_content, reason := c0.reason } := by
    simp [processFile, hskip, hresp, analyze_file_with_llm, hmodern, hschema]
  rw [fetch_updates_eq, filterPath_count_one r _ fp hcount, hpf]
  rfl

/-- Witness for C1: a concrete one-file directory with a valid non-sentinel
response yields exactly the one record with the overwritten path. -/
theorem c1_one_record_per_valid_file_witness :
    List.filter (fun cc => cc.path = "d/a.py")
      (fetch_updates [("d", ["a.py"])]
        (fun _ => (.content "code", .parsed (.obj [("path", .str "b"), ("old_content", .str "o"),
          ("new_content", .str "n"), ("reason", .str "r")]))))
      = [{ path := "d/a.py", old_content := "o", new_content := "n", reason := "r" }] :=
  c1_one_record_per_valid_file [("d", ["a.py"])]
    (fun _ => (.content "code", .parsed (.obj [("path", .str "b"), ("old_content", .str "o"),
      ("new_content", .str "n"), ("reason", .str "r")])))
    "d/a.py" "code"
    [("path", .str "b"), ("old_content", .str "o"), ("new_content", .str "n"), ("reason", .str "r")]
    { path := "b", old_content := "o", new_content := "n", reason := "r" }
    (by decide) (by decide) rfl (by decide) (by decide)

/-- C2: every Change Record in the list returned by `fetch_updates` has as
its `path` field the filesystem path of the analyzed file as produced by
the directory enumeration (a path that survives the skip condition), and
the record is exactly the contribution of analyzing that path — in
particular the `path` value carried by the remote response is irrelevant,
since the loop overwrites `path` with the enumerated file path. -/
theorem c2_path_is_enumerated_path (walk : List (String × List String))
    (r : String → ReadOutcome × RemoteOutcome) (cc : CodeChange)
    (h : cc ∈ fetch_updates walk r) :
    cc.path ∈ get_all_files_recursively walk ∧ shouldSkip cc.path = false ∧
    processFile r cc.path = some cc := by
  rw [fetch_updates_eq] at h
  rcases List.mem_filterMap.mp h with ⟨fp, hmem, hpf⟩
  have hfp : cc.path = fp := processFile_path hpf
  rw [hfp]
  refine ⟨hmem, ?_, hpf⟩
  cases hsk : shouldSkip fp with
  | false => rfl
  | true => simp [processFile, hsk] at hpf

/-- Witness for C2: the record collected from a concrete run whose remote
response claimed path `x` nevertheless carries the enumerated path
`d/a.py`. -/
theorem c2_path_is_enumerated_path_witness :
    ({ path := "d/a.py", old_content := "o", new_content := "n", reason := "r" }
        : CodeChange).path ∈ get_all_files_recursively [("d", ["a.py"])] ∧
    shouldSkip ({ path := "d/a.py", old_content := "o", new_content := "n", reason := "r" }
        : CodeChange).path = false ∧
    processFile (fun _ => (.content "code",
        .parsed (.obj [("path", .str "x"), ("old_content", .str "o"),
          ("new_content", .str "n"), ("reason", .str "r")])))
      ({ path := "d/a.py", old_content := "o", new_content := "n", reason := "r" }
        : CodeChange).path
      = some { path := "d/a.py", old_content := "o", new_content := "n", reason := "r" } :=
  c2_path_is_enumerated_path [("d", ["a.py"])]
    (fun _ => (.content "code",
      .parsed (.obj [("path", .str "x"), ("old_content", .str "o"),
        ("new_content", .str "n"), ("reason", .str "r")])))
    { path := "d/a.py", old_content := "o", new_content := "n", reason := "r" }
    (by decide)

/-- C3: relative to the enumeration (which, on a real filesystem, lists
each path at most once), the sequence of paths fed to the analysis call
excludes every path matching the skip rules and keeps every other
enumerated path exactly once; `fetch_updates` is exactly the analysis of
that sequence. -/
theorem c3_filter_excludes_and_keeps (walk : List (String × List String))
    (hnd : (get_all_files_recursively walk).Nodup) (p : String) :
    (shouldSkip p = true → p ∉ analyzed_files walk) ∧
    (shouldSkip p = false → p ∈ get_all_files_recursively walk →
      (analyzed_files walk).count p = 1) ∧
    (∀ r, fetch_updates walk r = (analyzed_files walk).filterMap
      (fun fp => ((analyze_file_with_llm fp (r fp).1 (r fp).2).1).map
        (fun response => { response with path := fp }))) := by
  refine ⟨?_, ?_, fun r => fetch_updates_analyzed walk r⟩
  · intro hs hmem
    rcases List.mem_filter.mp hmem with ⟨_, hkeep⟩
    simp [hs] at hkeep
  · intro hs hmem
    have hm2 : p ∈ analyzed_files walk :=
      List.mem_filter.mpr ⟨hmem, by simp [hs]⟩
    exact List.count_eq_one_of_mem (List.Nodup.filter _ hnd) hm2

/-- Witness for C3: in a directory holding `a.py` and `style.css`, the
skip rules drop the style sheet, keep the Python file exactly once, and
the run analyzes exactly the kept sequence. -/
theorem c3_filter_excludes_and_keeps_witness :
    ("d/style.css" ∉ analyzed_files [("d", ["a.py", "style.css"])]) ∧
    ((analyzed_files [("d", ["a.py", "style.css"])]).count "d/a.py" = 1) ∧
    (fetch_updates [("d", ["a.py", "style.css"])]
        (fun _ => (.content "code", .parsed (.obj [("modern", .bool true)])))
      = (analyzed_files [("d", ["a.py", "style.css"])]).filterMap
        (fun fp => ((analyze_file_with_llm fp
            ((fun (_ : String) => ((.content "code", .parsed (.obj [("modern", .bool true)])) :
              ReadOutcome × RemoteOutcome)) fp).1
            ((fun (_ : String) => ((.content "code", .parsed (.obj [("modern", .bool true)])) :
              ReadOutcome × RemoteOutcome)) fp).2).1).map
          (fun response => { response with path := fp }))) :=
  ⟨(c3_filter_excludes_and_keeps [("d", ["a.py", "style.css"])] (by decide) "d/style.css").1
      (by decide),
   (c3_filter_excludes_and_keeps [("d", ["a.py", "style.css"])] (by decide) "d/a.py").2.1
      (by decide) (by decide),
   (c3_filter_excludes_and_keeps [("d", ["a.py", "style.css"])] (by decide) "d/a.py").2.2
      (fun _ => (.content "code", .parsed (.obj [("modern", .bool true)])))⟩

/-- C4, claim as stated, fails on one boundary input: the response
`{"modern": true}` is a JSON object missing every required schema field,
yet the code takes the sentinel branch first and emits no diagnostic at
all (the log list is empty); a record is still not produced. -/
theorem c4_counterexample :
    missingRequiredField [("modern", PyJson.bool true)] = true ∧
    analyze_file_with_llm "d/a.py" (.content "code")
      (.parsed (.obj [("modern", PyJson.bool true)])) = (none, []) :=
  ⟨by decide, by decide⟩

/-- C4 (amended): for a file whose remote response is malformed JSON, or
is missing a required schema field while not being the no-change sentinel,
no Change Record is produced, a diagnostic naming the file is emitted and
the run continues with the remaining files (for the sentinel no diagnostic
is emitted); equivalently, a record is only constructed when the response
parses as a JSON object, is not the sentinel, and satisfies the schema
(`responseRecord`). -/
theorem c4_invalid_response_skipped (file_path s : String) :
    (∀ m raw,
      (analyze_file_with_llm file_path (.content s) (.parseError m raw)).1 = none ∧
      (analyze_file_with_llm file_path (.content s) (.parseError m raw)).2
        = ["Error parsing Gemini JSON response for " ++ file_path ++ ": " ++ m,
           "Response was: " ++ String.mk (raw.toList.take 200) ++ "..."] ∧
      py_in file_path ("Error parsing Gemini JSON response for " ++ file_path ++ ": " ++ m)
        = true) ∧
    (∀ fields, missingRequiredField fields = true →
      truthyOpt (dictGet fields "modern") = false →
      analyze_file_with_llm file_path (.content s) (.parsed (.obj fields))
        = (none, ["Invalid CodeChange format for " ++ file_path ++ ": validation error"]) ∧
      py_in file_path ("Invalid CodeChange format for " ++ file_path ++ ": validation error")
        = true) ∧
    (∀ read remote cc,
      (analyze_file_with_llm file_path read remote).1 = some cc →
      responseRecord remote = some cc) ∧
    (∀ (w1 w2 : List (String × List String)) (root name : String) (f1 f2 : List String)
        (r : String → ReadOutcome × RemoteOutcome),
      (analyze_file_with_llm (ospath_join root name)
          (r (ospath_join root name)).1 (r (ospath_join root name)).2).1 = none →
      fetch_updates (w1 ++ (root, f1 ++ name :: f2) :: w2) r
        = fetch_updates (w1 ++ (root, f1 ++ f2) :: w2) r) := by
  refine ⟨?_, ?_, ?_, ?_⟩
  · intro m raw
    refine ⟨rfl, rfl, ?_⟩
    apply py_in_of_parts file_path _ "Error parsing Gemini JSON response for ".toList
      (": " ++ m).toList
    simp [String.toList, String.data_append, List.append_assoc]
  · intro fields hmiss hmod
    have hv : validateCodeChange fields = none := validate_none_of_missing hmiss
    constructor
    · simp [analyze_file_with_llm, hmod, hv]
    · apply py_in_of_parts file_path _ "Invalid CodeChange format for ".toList
        ": validation error".toList
      simp [String.toList, String.data_append, List.append_assoc]
  · intro read remote cc h
    cases read with
    | readError m => simp [analyze_file_with_llm] at h
    | content s2 =>
      cases remote with
      | apiError m => simp [analyze_file_with_llm] at h
      | parseError m raw => simp [analyze_file_with_llm] at h
      | parsed j =>
        cases j with
        | obj fields =>
          cases hm : truthyOpt (dictGet fields "modern") with
          | true => simp [analyze_file_with_llm, hm] at h
          | false =>
            cases hv : validateCodeChange fields with
            | none => simp [analyze_file_with_llm, hm, hv] at h
            | some c2 =>
              have : c2 = cc := by simp [analyze_file_with_llm, hm, hv] at h; exact h
              simp [responseRecord, hm, hv, this]
        | null => simp [analyze_file_with_llm] at h
        | bool b => simp [analyze_file_with_llm] at h
        | num n => simp [analyze_file_with_llm] at h
        | str t => simp [analyze_file_with_llm] at h
        | arr xs => simp [analyze_file_with_llm] at h
  · intro w1 w2 root name f1 f2 r h
    apply fetch_skip_middle
    unfold processFile
    cases hsk : shouldSkip (ospath_join root name) with
    | true => simp [hsk]
    | false => simp [hsk, h]

/-- Witness for C4: concrete malformed-JSON and missing-field responses
produce no record, emit a diagnostic naming `d/a.py`, and removing the
failing file from the walk leaves the run's output unchanged; a concrete
valid response satisfies the construction invariant. -/
theorem c4_invalid_response_skipped_witness :
    ((analyze_file_with_llm "d/a.py" (.content "code") (.parseError "Expecting value" "oops")).1
      = none) ∧
    py_in "d/a.py"
      ("Error parsing Gemini JSON response for " ++ "d/a.py" ++ ": " ++ "Expecting value")
      = true ∧
    (analyze_file_with_llm "d/a.py" (.content "code")
        (.parsed (.obj [("path", .str "p")]))
      = (none, ["Invalid CodeChange format for " ++ "d/a.py" ++ ": validation error"])) ∧
    responseRecord (.parsed (.obj [("path", .str "p"), ("old_content", .str "o"),
        ("new_content", .str "n"), ("reason", .str "r")]))
      = some { path := "p", old_content := "o", new_content := "n", reason := "r" } ∧
    fetch_updates [("a", ["m.py"]), ("d", ["x.py", "bad.py", "y.py"]), ("z", ["k.py"])]
        (fun _ => (.content "code", .parseError "Expecting value" "oops"))
      = fetch_updates [("a", ["m.py"]), ("d", ["x.py", "y.py"]), ("z", ["k.py"])]
        (fun _ => (.content "code", .parseError "Expecting value" "oops")) :=
  ⟨((c4_invalid_response_skipped "d/a.py" "code").1 "Expecting value" "oops").1,
   ((c4_invalid_response_skipped "d/a.py" "code").1 "Expecting value" "oops").2.2,
   ((c4_invalid_response_skipped "d/a.py" "code").2.1 [("path", .str "p")]
      (by decide) (by decide)).1,
   (c4_invalid_response_skipped "d/a.py" "code").2.2.1 (.content "code")
      (.parsed (.obj [("path", .str "p"), ("old_content", .str "o"),
        ("new_content", .str "n"), ("reason", .str "r")]))
      { path := "p", old_content := "o", new_content := "n", reason := "r" } (by decide),
   (c4_invalid_response_skipped "d/bad.py" "code").2.2.2
      [("a", ["m.py"])] [("z", ["k.py"])] "d" "bad.py" ["x.py"] ["y.py"]
      (fun _ => (.content "code", .parseError "Expecting value" "oops")) rfl⟩

/-- C5: a remote response that is the no-change sentinel — a JSON object
whose `modern` field is `true` — yields no Change Record (and no
diagnostic): `analyze_file_with_llm` returns `None` from the sentinel
branch, and the file contributes nothing to the collected list. -/
theorem c5_modern_sentinel_no_record (fields : List (String × PyJson))
    (h : dictGet fields "modern" = some (.bool true)) :
    (∀ file_path s,
      analyze_file_with_llm file_path (.content s) (.parsed (.obj fields)) = (none, [])) ∧
    (∀ (w1 w2 : List (String × List String)) (root name s : String) (f1 f2 : List String)
        (r : String → ReadOutcome × RemoteOutcome),
      r (ospath_join root name) = (.content s, .parsed (.obj fields)) →
      fetch_updates (w1 ++ (root, f1 ++ name :: f2) :: w2) r
        = fetch_updates (w1 ++ (root, f1 ++ f2) :: w2) r) := by
  have htr : truthyOpt (dictGet fields "modern") = true := by rw [h]; rfl
  constructor
  · intro file_path s
    simp [analyze_file_with_llm, htr]
  · intro w1 w2 root name s f1 f2 r hr
    apply fetch_skip_middle
    unfold processFile
    cases hsk : shouldSkip (ospath_join root name) with
    | true => simp [hsk]
    | false => simp [hsk, hr, analyze_file_with_llm, htr]

/-- Witness for C5: the concrete sentinel `{"modern": true}` produces no
record for `d/a.py` and removing that file leaves the run unchanged. -/
theorem c5_modern_sentinel_no_record_witness :
    analyze_file_with_llm "d/a.py" (.content "code")
      (.parsed (.obj [("modern", .bool true)])) = (none, []) ∧
    fetch_updates [("d", ["a.py", "b.py"])]
        (fun _ => (.content "code", .parsed (.obj [("modern", .bool true)])))
      = fetch_updates [("d", ["b.py"])]
        (fun _ => (.content "code", .parsed (.obj [("modern", .bool true)]))) :=
  ⟨(c5_modern_sentinel_no_record [("modern", .bool true)] (by rfl)).1 "d/a.py" "code",
   (c5_modern_sentinel_no_record [("modern", .bool true)] (by rfl)).2
     [] [] "d" "a.py" "code" [] ["b.py"]
     (fun _ => (.content "code", .parsed (.obj [("modern", .bool true)]))) rfl⟩

/-- C8: a file that cannot be read produces a log line naming the file and
the error, yields no Change Record and hence no entry in the final report,
and the run continues with the remaining files unchanged. -/
theorem c8_unreadable_file_skipped (file_path msg : String) (remote : RemoteOutcome) :
    (analyze_file_with_llm file_path (.readError msg) remote).1 = none ∧
    (analyze_file_with_llm file_path (.readError msg) remote).2
      = ["Error reading " ++ file_path ++ ": " ++ msg] ∧
    py_in file_path ("Error reading " ++ file_path ++ ": " ++ msg) = true ∧
    (∀ (w1 w2 : List (String × List String)) (root name : String) (f1 f2 : List String)
        (r : String → ReadOutcome × RemoteOutcome),
      (r (ospath_join root name)).1 = .readError msg →
      fetch_updates (w1 ++ (root, f1 ++ name :: f2) :: w2) r
        = fetch_updates (w1 ++ (root, f1 ++ f2) :: w2) r) := by
  refine ⟨rfl, rfl, ?_, ?_⟩
  · apply py_in_of_parts file_path _ "Error reading ".toList (": " ++ msg).toList
    simp [String.toList, String.data_append, List.append_assoc]
  · intro w1 w2 root name f1 f2 r hr
    apply fetch_skip_middle
    unfold processFile
    cases hsk : shouldSkip (ospath_join root name) with
    | true => simp [hsk]
    | false => simp [hsk, hr, analyze_file_with_llm]

/-- Witness for C8: a concrete permission error on `d/a.py` is logged with
the file named, and dropping the unreadable file leaves the run's output
unchanged. -/
theorem c8_unreadable_file_skipped_witness :
    (analyze_file_with_llm "d/a.py" (.readError "Permission denied") (.apiError "x")).1
      = none ∧
    (analyze_file_with_llm "d/a.py" (.readError "Permission denied") (.apiError "x")).2
      = ["Error reading " ++ "d/a.py" ++ ": " ++ "Permission denied"] ∧
    py_in "d/a.py" ("Error reading " ++ "d/a.py" ++ ": " ++ "Permission denied") = true ∧
    fetch_updates [("d", ["a.py", "b.py"])]
        (fun _ => (.readError "Permission denied", .apiError "x"))
      = fetch_updates [("d", ["b.py"])]
        (fun _ => (.readError "Permission denied", .apiError "x")) :=
  ⟨(c8_unreadable_file_skipped "d/a.py" "Permission denied" (.apiError "x")).1,
   (c8_unreadable_file_skipped "d/a.py" "Permission denied" (.apiError "x")).2.1,
   (c8_unreadable_file_skipped "d/a.py" "Permission denied" (.apiError "x")).2.2.1,
   (c8_unreadable_file_skipped "d/a.py" "Permission denied" (.apiError "x")).2.2.2
     [] [] "d" "a.py" [] ["b.py"]
     (fun _ => (.readError "Permission denied", .apiError "x")) rfl⟩

/-- C6, claim as stated, is false on the code: `os.walk` is called with
its default `onerror=None`, so an unreadable root directory raises no
error — the enumeration is simply empty and the run completes normally
with an empty result list (the directory does contain `a.py`), instead of
the whole run failing. -/
theorem c6_counterexample :
    os_walk "d" (DirTree.node false ["a.py"] []) = [] ∧
    get_all_files_recursively (os_walk "d" (DirTree.node false ["a.py"] [])) = [] ∧
    run_on_directory "d" (DirTree.node false ["a.py"] [])
      (fun _ => (.content "code", .parsed (.obj [("modern", .bool true)]))) = [] := by
  refine ⟨?_, ?_, ?_⟩ <;> simp [os_walk, run_on_directory, fetch_updates, get_all_files_recursively]

/-- C6 (amended): an unreadable directory does not fail the run; the walk
silently ignores the error, omitting the unreadable directory and its
whole subtree, and the run continues — an unreadable root therefore
yields an empty enumeration and an empty, normally produced result. -/
theorem c6_unreadable_dir_ignored :
    (∀ path files subdirs, os_walk path (DirTree.node false files subdirs) = []) ∧
    (∀ path files (pre post : List (String × DirTree)) name bfiles bsubs,
      os_walk path
          (DirTree.node true files (pre ++ (name, DirTree.node false bfiles bsubs) :: post))
        = os_walk path (DirTree.node true files (pre ++ post))) ∧
    (∀ root files subdirs r, run_on_directory root (DirTree.node false files subdirs) r = []) := by
  refine ⟨?_, ?_, ?_⟩
  · intro path files subdirs
    simp [os_walk]
  · intro path files pre post name bfiles bsubs
    simp [os_walk, os_walk_children_append, os_walk_children]
  · intro root files subdirs r
    simp [run_on_directory, os_walk, fetch_updates, get_all_files_recursively]

/-- C7: when the credential variable is absent from the environment, the
program aborts with the `ValueError` message at import time, before any
enumeration, file read or analysis: the outcome is the same error for
every filesystem and every responder. -/
theorem c7_missing_credential_aborts (env : String → Option String)
    (h : env "GEMINI_API_KEY" = none) :
    ∀ (walk : List (String × List String)) (r : String → ReadOutcome × RemoteOutcome),
      run_program env walk r = .error "GEMINI_API_KEY not found in environment variables!" := by
  intro walk r
  simp [run_program, startup_api_key, h]

/-- Witness for C7: a concrete empty environment aborts a concrete run. -/
theorem c7_missing_credential_aborts_witness :
    run_program (fun _ => none) [("d", ["a.py"])]
      (fun _ => (.content "code", .parsed (.obj [("modern", .bool true)])))
      = .error "GEMINI_API_KEY not found in environment variables!" :=
  c7_missing_credential_aborts (fun _ => none) rfl [("d", ["a.py"])]
    (fun _ => (.content "code", .parsed (.obj [("modern", .bool true)])))

/-- C9: the pipeline is deterministic — with a fixed walk and a fixed
(mocked) responder, two runs return the same ordered record list; stated
as congruence in the responder, covering two runs against responders with
identical per-file behaviour. -/
theorem c9_deterministic (walk : List (String × List String))
    (r1 r2 : String → ReadOutcome × RemoteOutcome)
    (h : ∀ fp, r1 fp = r2 fp) :
    fetch_updates walk r1 = fetch_updates walk r2 := by
  have he : r1 = r2 := funext h
  rw [he]

/-- Witness for C9: two syntactically different but pointwise equal
responders give the same output on a concrete walk. -/
theorem c9_deterministic_witness :
    fetch_updates [("d", ["a.py"])] (fun _ => (.content "x", .apiError "boom"))
      = fetch_updates [("d", ["a.py"])] (fun _ => (.content ("x" ++ ""), .apiError "boom")) :=
  c9_deterministic [("d", ["a.py"])]
    (fun _ => (.content "x", .apiError "boom"))
    (fun _ => (.content ("x" ++ ""), .apiError "boom"))
    (fun _ => by rw [show ("x" ++ "" : String) = "x" from by decide])

/-- C10: a response that parses as JSON but is not a JSON object (array,
string, number, boolean or null) raises `AttributeError` inside
`analyze_file_with_llm` at `data.get("modern")`, which the blanket
`except` catches: the caller sees no exception, a diagnostic naming the
file is logged, no record is produced, and the batch continues. -/
theorem c10_non_object_response (file_path s : String) (j : PyJson)
    (h : j.isObj = false) :
    analyze_file_with_llm file_path (.content s) (.parsed j)
      = (none, ["Error analyzing " ++ file_path ++ " with Gemini: AttributeError"]) ∧
    py_in file_path ("Error analyzing " ++ file_path ++ " with Gemini: AttributeError")
      = true ∧
    (∀ (w1 w2 : List (String × List String)) (root name : String) (f1 f2 : List String)
        (r : String → ReadOutcome × RemoteOutcome),
      r (ospath_join root name) = (.content s, .parsed j) →
      fetch_updates (w1 ++ (root, f1 ++ name :: f2) :: w2) r
        = fetch_updates (w1 ++ (root, f1 ++ f2) :: w2) r) := by
  have h1 : analyze_file_with_llm file_path (.content s) (.parsed j)
      = (none, ["Error analyzing " ++ file_path ++ " with Gemini: AttributeError"]) := by
    cases j with
    | obj fs => simp [PyJson.isObj] at h
    | null => rfl
    | bool b => rfl
    | num n => rfl
    | str t => rfl
    | arr xs => rfl
  refine ⟨h1, ?_, ?_⟩
  · apply py_in_of_parts file_path _ "Error analyzing ".toList
      " with Gemini: AttributeError".toList
    simp [String.toList, String.data_append, List.append_assoc]
  · intro w1 w2 root name f1 f2 r hr
    apply fetch_skip_middle
    unfold processFile
    cases hsk : shouldSkip (ospath_join root name) with
    | true => simp [hsk]
    | false =>
      have h2 : analyze_file_with_llm (ospath_join root name) (.content s) (.parsed j)
          = (none, ["Error analyzing " ++ ospath_join root name
              ++ " with Gemini: AttributeError"]) := by
        cases j with
        | obj fs => simp [PyJson.isObj] at h
        | null => rfl
        | bool b => rfl
        | num n => rfl
        | str t => rfl
        | arr xs => rfl
      simp [hsk, hr, h2]

/-- Witness for C10: a concrete JSON array response is absorbed without an
exception, with a diagnostic naming `d/a.py`, and the batch result is as
if the file were absent. -/
theorem c10_non_object_response_witness :
    analyze_file_with_llm "d/a.py" (.content "code") (.parsed (.arr []))
      = (none, ["Error analyzing " ++ "d/a.py" ++ " with Gemini: AttributeError"]) ∧
    py_in "d/a.py" ("Error analyzing " ++ "d/a.py" ++ " with Gemini: AttributeError") = true ∧
    fetch_updates [("d", ["a.py", "b.py"])]
        (fun _ => (.content "code", .parsed (.arr [])))
      = fetch_updates [("d", ["b.py"])]
        (fun _ => (.content "code", .parsed (.arr []))) :=
  ⟨(c10_non_object_response "d/a.py" "code" (.arr []) rfl).1,
   (c10_non_object_response "d/a.py" "code" (.arr []) rfl).2.1,
   (c10_non_object_response "d/a.py" "code" (.arr []) rfl).2.2
     [] [] "d" "a.py" [] ["b.py"]
     (fun _ => (.content "code", .parsed (.arr []))) rfl⟩
